import Mathlib

/-
Verification of the collaborative fashion-sustainability agent pipeline.

The Python source is shallowly embedded: every dataclass becomes a Lean
structure, every method a Lean function.  External collaborators (the chat
model, the structured-output parser of the langchain library, and the Tavily
search provider) are opaque in the source, so they enter the embedding as
oracle parameters: the outcome a collaborator would return is passed in
explicitly, and the embedding records every outbound interaction in an
explicit trace of `ExtCall` values.  Numbers are modelled as `Rat`: the
source performs no arithmetic on its floats, it only carries them through
parsing and serialization, so exactness of transport is the only property
that matters.  Python exceptions become an explicit error type
(`AgentError`) threaded through `Except`.
-/

/-- A dynamic (Python/JSON-like) value, as handled by the structured-output
parsing layer and by `to_dict` serialization. -/
inductive PyValue where
  | none
  | num (q : Rat)
  | str (s : String)
  | list (xs : List PyValue)
  | dict (fields : List (String × PyValue))

/-- Rendering of a dynamic value, modelling the textual form Python gives a
value (abstracting CPython repr details for containers and numbers; the
claims only depend on the string case being the identity under `pyStr`). -/
def PyValue.render : PyValue → String
  | .none => "None"
  | .num q => toString q
  | .str s => "\x22" ++ s ++ "\x22"
  | .list xs => "[" ++ String.intercalate ", " (xs.attach.map fun v => v.1.render) ++ "]"
  | .dict fs =>
      "\x7b" ++
        String.intercalate ", "
          (fs.attach.map fun f => "\x22" ++ f.1.1 ++ "\x22" ++ ": " ++ f.1.2.render)
      ++ "\x7d"
decreasing_by
  · have := List.sizeOf_lt_of_mem v.2
    simp only [PyValue.list.sizeOf_spec]
    omega
  · have h1 := List.sizeOf_lt_of_mem f.2
    have h2 : sizeOf f.1.2 < sizeOf f.1 := by
      obtain ⟨k, v⟩ := f.1
      simp only [Prod.mk.sizeOf_spec]
      omega
    simp only [PyValue.dict.sizeOf_spec]
    omega

/-- Python `str()` coercion: the identity on strings, a rendering otherwise
(web_search.py line 54 applies it to whatever the underlying tool returned). -/
def pyStr : PyValue → String
  | .str s => s
  | v => v.render

/-- Python truthiness of an optional string (`if not settings.openai_api_key`
and `if self._tavily_api_key`): `None` and the empty string are falsy. -/
def pyTruthyOpt : Option String → Bool
  | Option.none => false
  | Option.some s => !s.isEmpty

/- ---------------- Data model (src/agents/fashion_analyzer.py,
   src/agents/sustainability_estimator.py, src/tools/web_search.py) ------- -/

/-- `MaterialComponent` dataclass: one identified garment material. -/
structure MaterialComponent where
  name : String
  percentage : Rat
  weight_grams : Rat
deriving DecidableEq, Repr

/-- `FashionAnalysis` dataclass: structured output of Agent A. -/
structure FashionAnalysis where
  garment_summary : String
  components : List MaterialComponent
  total_weight_grams : Option Rat
deriving DecidableEq, Repr

/-- `SustainabilityEstimates` dataclass: structured output of Agent B. -/
structure SustainabilityEstimates where
  water_liters : Rat
  co2_kg : Rat
  energy_kwh : Rat
  methodology_notes : String
  research_context : String
deriving DecidableEq, Repr

/-- `WebSearchResult` dataclass: container for search outcomes. -/
structure WebSearchResult where
  query : String
  raw_output : String
deriving DecidableEq, Repr

/-- The error kinds the source can raise, one constructor per raise site:
`RuntimeError` for a missing credential, `RuntimeError` wrapping an
`OutputParserException`, `ValueError` for an empty component list, and the
provider-level failure of a live search call. -/
inductive AgentError where
  | missingCredential (msg : String)
  | responseFormat (msg : String)
  | invalidInput (msg : String)
  | researchUnavailable (msg : String)
deriving DecidableEq, Repr

/-- A record of one outbound interaction, used to state that a step did or
did not reach a collaborator. `searchToolRun` is an invocation of the search
tool object (which may be the local disabled fallback); `searchNetwork` is
an actual outbound call to the search provider; the two model constructors
are the chat-model invocations of the two agents. -/
inductive ExtCall where
  | analyzerModel (image_reference : String) (user_context : String)
  | searchToolRun (query : String)
  | searchNetwork (query : String)
  | estimatorModel (research_notes : String)
deriving DecidableEq, Repr

/-- The queries issued to the search tool within a trace. -/
def searchQueries (calls : List ExtCall) : List String :=
  calls.filterMap fun c =>
    match c with
    | .searchToolRun q => Option.some q
    | _ => Option.none

/-- The outbound network calls to the search provider within a trace. -/
def networkCalls (calls : List ExtCall) : List String :=
  calls.filterMap fun c =>
    match c with
    | .searchNetwork q => Option.some q
    | _ => Option.none

/-- The estimator chat-model invocations within a trace. -/
def estimatorModelCalls (calls : List ExtCall) : List String :=
  calls.filterMap fun c =>
    match c with
    | .estimatorModel notes => Option.some notes
    | _ => Option.none

/- ---------------- Web search tool (src/tools/web_search.py) ------------- -/

/-- The fixed advisory returned by the fallback when no search credential is
configured (web_search.py lines 33-36). -/
def disabledSearchMessage : String :=
  "Web search is currently disabled. Provide `TAVILY_API_KEY` in the " ++
    "environment to enable live sustainability research."

/-- The two tool variants `_build_tool` can construct: a live Tavily search
tool, or the local disabled fallback. -/
inductive SearchToolVariant where
  | tavily (api_key : String) (k : Nat)
  | disabled
deriving DecidableEq, Repr

/-- `SustainabilityWebSearchTool._build_tool` (web_search.py lines 26-42):
a truthy credential selects the live Tavily tool, otherwise the fallback. -/
def SustainabilityWebSearchTool.build_tool
    (tavily_api_key : Option String) (k : Nat) : SearchToolVariant :=
  if pyTruthyOpt tavily_api_key then
    .tavily (tavily_api_key.getD "") k
  else
    .disabled

/-- Invoking the underlying langchain tool (`self._tool.run(query)`).  The
live provider's behaviour is an oracle `providerOutcome`: the dynamic value
it would return, or the message of the error it would raise.  The disabled
fallback returns the fixed advisory with no network call. -/
def toolInvoke (variant : SearchToolVariant)
    (providerOutcome : Except String PyValue) (query : String) :
    Except AgentError PyValue × List ExtCall :=
  match variant with
  | .disabled => (.ok (.str disabledSearchMessage), [])
  | .tavily _ _ =>
      match providerOutcome with
      | .ok v => (.ok v, [.searchNetwork query])
      | .error msg => (.error (.researchUnavailable msg), [.searchNetwork query])

/-- `SustainabilityWebSearchTool.run` (web_search.py lines 50-54): run the
underlying tool and wrap the coerced output together with the query. -/
def SustainabilityWebSearchTool.run (variant : SearchToolVariant)
    (providerOutcome : Except String PyValue) (query : String) :
    Except AgentError WebSearchResult × List ExtCall :=
  match toolInvoke variant providerOutcome query with
  | (.ok output, calls) =>
      (.ok { query := query, raw_output := pyStr output }, .searchToolRun query :: calls)
  | (.error e, calls) => (.error e, .searchToolRun query :: calls)

/- ---------------- Agent A (src/agents/fashion_analyzer.py) -------------- -/

/-- A well-formed parsed model response for one component entry: each
recognized key is either present with its documented type or absent.
This is the shape `item.get(key, default)` reads from. -/
structure ParsedComponent where
  name : Option String
  percentage : Option Rat
  weight_grams : Option Rat
deriving DecidableEq, Repr

/-- A well-formed parsed model response of the analyzer (the dictionary the
langchain `StructuredOutputParser` yields on success, restricted to the
recognized keys, each present or absent). -/
structure ParsedAnalyzerResponse where
  garment_summary : Option String
  components : Option (List ParsedComponent)
  total_weight_grams : Option Rat
deriving DecidableEq, Repr

/-- Building one `MaterialComponent` from a parsed entry
(fashion_analyzer.py lines 115-119): `str(item.get("name", ""))`,
`float(item.get("percentage", 0.0))`, `float(item.get("weight_grams", 0.0))`. -/
def mkMaterialComponent (item : ParsedComponent) : MaterialComponent :=
  { name := item.name.getD ""
    percentage := item.percentage.getD 0
    weight_grams := item.weight_grams.getD 0 }

/-- Building the `FashionAnalysis` from the parsed response
(fashion_analyzer.py lines 113-130): components default to the empty list,
the summary to the empty string, and the total weight stays unset (`None`)
when absent, `float(total_weight)` otherwise. -/
def mkFashionAnalysis (parsed : ParsedAnalyzerResponse) : FashionAnalysis :=
  { garment_summary := parsed.garment_summary.getD ""
    components := (parsed.components.getD []).map mkMaterialComponent
    total_weight_grams :=
      match parsed.total_weight_grams with
      | Option.none => Option.none
      | Option.some w => Option.some w }

/-- `FashionMaterialAnalyzer.analyze` (fashion_analyzer.py lines 100-130).
The chat model plus the library parser are one oracle: the parse outcome on
the model's response text (`.error` is an `OutputParserException`, which the
source wraps into a `RuntimeError`).  The model is invoked exactly once,
before parsing, so the trace holds one `analyzerModel` call either way. -/
def FashionMaterialAnalyzer.analyze
    (llmParseOutcome : Except String ParsedAnalyzerResponse)
    (image_reference : String) (user_context : String) :
    Except AgentError FashionAnalysis × List ExtCall :=
  let context := if user_context.isEmpty then "No additional context provided." else user_context
  match llmParseOutcome with
  | .error msg =>
      (.error (.responseFormat ("Failed to parse LLM response: " ++ msg)),
        [.analyzerModel image_reference context])
  | .ok parsed =>
      (.ok (mkFashionAnalysis parsed), [.analyzerModel image_reference context])

/- ---------------- Agent B (src/agents/sustainability_estimator.py) ------ -/

/-- A well-formed parsed model response of the estimator (recognized keys
present with their documented type or absent). -/
structure ParsedEstimatorResponse where
  water_liters : Option Rat
  co2_kg : Option Rat
  energy_kwh : Option Rat
  methodology_notes : Option String
  research_context : Option String
deriving DecidableEq, Repr

/-- Building the `SustainabilityEstimates` from the parsed response
(sustainability_estimator.py lines 144-150): every numeric field defaults
to 0, every string field to the empty string. -/
def mkSustainabilityEstimates (parsed : ParsedEstimatorResponse) : SustainabilityEstimates :=
  { water_liters := parsed.water_liters.getD 0
    co2_kg := parsed.co2_kg.getD 0
    energy_kwh := parsed.energy_kwh.getD 0
    methodology_notes := parsed.methodology_notes.getD ""
    research_context := parsed.research_context.getD "" }

/-- `SustainabilityEstimator._build_research_query` (sustainability_estimator.py
lines 152-159): the first three component names, in order, joined with
", " after the fixed lifecycle-assessment lead-in. -/
def SustainabilityEstimator.build_research_query (analysis : FashionAnalysis) : String :=
  let dominant_materials := analysis.components.map MaterialComponent.name
  "Lifecycle assessment water CO2 energy consumption for " ++
    String.intercalate ", " (dominant_materials.take 3)

/-- `SustainabilityEstimator.estimate` (sustainability_estimator.py lines
111-150).  An empty component list raises `ValueError` before anything else;
otherwise the search tool is run on the built query, the chat model is
invoked with the research notes, and the parsed response is read with the
default policy.  The search provider and the model-plus-parser are oracles;
the trace records each interaction in order. -/
def SustainabilityEstimator.estimate (search_tool : SearchToolVariant)
    (searchOutcome : Except String PyValue)
    (llmParseOutcome : Except String ParsedEstimatorResponse)
    (analysis : FashionAnalysis) :
    Except AgentError SustainabilityEstimates × List ExtCall :=
  if analysis.components.isEmpty then
    (.error (.invalidInput "Fashion analysis does not contain any components to estimate."), [])
  else
    let research_query := SustainabilityEstimator.build_research_query analysis
    match SustainabilityWebSearchTool.run search_tool searchOutcome research_query with
    | (.error e, calls) => (.error e, calls)
    | (.ok research_result, calls) =>
        let callsAll := calls ++ [.estimatorModel research_result.raw_output]
        match llmParseOutcome with
        | .error msg =>
            (.error (.responseFormat ("Failed to parse LLM response: " ++ msg)), callsAll)
        | .ok parsed => (.ok (mkSustainabilityEstimates parsed), callsAll)

/- ---------------- Construction / configuration (config.py, __init__s) --- -/

/-- `Settings` (config.py lines 10-23): credentials and model identifiers. -/
structure Settings where
  openai_api_key : Option String
  tavily_api_key : Option String
  fashion_analyzer_model : String
  sustainability_analyzer_model : String
deriving DecidableEq, Repr

/-- A chat-model client value: either one constructed from the settings
(`ChatOpenAI(model=..., temperature=..., api_key=...)`, which performs no
outbound call when constructed), or an injected alternate client. -/
inductive LLMClient where
  | chatOpenAI (model : String) (temperature : Rat) (api_key : String)
  | injected (id : Nat)
deriving DecidableEq, Repr

/-- `FashionMaterialAnalyzer.__init__` (fashion_analyzer.py lines 37-53):
with no injected client, a missing (falsy) model-provider credential raises
immediately; otherwise the client is constructed from the settings. -/
def FashionMaterialAnalyzer.init (settings : Settings) (llm : Option LLMClient) :
    Except AgentError LLMClient :=
  match llm with
  | Option.some l => .ok l
  | Option.none =>
      if pyTruthyOpt settings.openai_api_key then
        .ok (.chatOpenAI settings.fashion_analyzer_model 0 (settings.openai_api_key.getD ""))
      else
        .error (.missingCredential
          "OPENAI_API_KEY is required to instantiate FashionMaterialAnalyzer.")

/-- The constructed state of the estimator: its client and its search tool. -/
structure EstimatorState where
  llm : LLMClient
  search_tool : SearchToolVariant
deriving DecidableEq, Repr

/-- `SustainabilityEstimator.__init__` (sustainability_estimator.py lines
31-55): with no injected client, a missing credential raises immediately;
the search tool is the injected one, or else is built from the (possibly
absent) Tavily credential with the default result cap of 5. -/
def SustainabilityEstimator.init (settings : Settings)
    (analysis_agent : Option LLMClient) (search_tool : Option SearchToolVariant) :
    Except AgentError EstimatorState :=
  match analysis_agent with
  | Option.some l =>
      .ok { llm := l
            search_tool :=
              search_tool.getD (SustainabilityWebSearchTool.build_tool settings.tavily_api_key 5) }
  | Option.none =>
      if pyTruthyOpt settings.openai_api_key then
        .ok { llm := .chatOpenAI settings.sustainability_analyzer_model 0.2
                 (settings.openai_api_key.getD "")
              search_tool :=
                search_tool.getD (SustainabilityWebSearchTool.build_tool settings.tavily_api_key 5) }
      else
        .error (.missingCredential
          "OPENAI_API_KEY is required to instantiate SustainabilityEstimator.")

/- ---------------- Orchestrator (src/agents/orchestrator.py) ------------- -/

/-- `OrchestratedResponse` dataclass: the combined result of the two agents. -/
structure OrchestratedResponse where
  fashion_analysis : FashionAnalysis
  sustainability_estimates : SustainabilityEstimates
deriving DecidableEq, Repr

/-- `asdict(component)` for a `MaterialComponent` (dataclass field order). -/
def MaterialComponent.to_dict (c : MaterialComponent) : PyValue :=
  .dict [("name", .str c.name), ("percentage", .num c.percentage),
    ("weight_grams", .num c.weight_grams)]

/-- `OrchestratedResponse.to_dict` (orchestrator.py lines 21-33): the nested
key-value serialization of the combined result. -/
def OrchestratedResponse.to_dict (r : OrchestratedResponse) : PyValue :=
  .dict [
    ("fashion_analysis", .dict [
      ("garment_summary", .str r.fashion_analysis.garment_summary),
      ("total_weight_grams",
        match r.fashion_analysis.total_weight_grams with
        | Option.some w => .num w
        | Option.none => .none),
      ("components", .list (r.fashion_analysis.components.map MaterialComponent.to_dict))]),
    ("sustainability_estimates", .dict [
      ("water_liters", .num r.sustainability_estimates.water_liters),
      ("co2_kg", .num r.sustainability_estimates.co2_kg),
      ("energy_kwh", .num r.sustainability_estimates.energy_kwh),
      ("methodology_notes", .str r.sustainability_estimates.methodology_notes),
      ("research_context", .str r.sustainability_estimates.research_context)])]

/-- `CollaborativeAgentOrchestrator.run` (orchestrator.py lines 47-58):
Agent A, then Agent B on its output, no error handling in between. -/
def CollaborativeAgentOrchestrator.run
    (analyzerParse : Except String ParsedAnalyzerResponse)
    (search_tool : SearchToolVariant)
    (searchOutcome : Except String PyValue)
    (estimatorParse : Except String ParsedEstimatorResponse)
    (image_reference : String) (user_prompt : String) :
    Except AgentError OrchestratedResponse × List ExtCall :=
  match FashionMaterialAnalyzer.analyze analyzerParse image_reference user_prompt with
  | (.error e, calls) => (.error e, calls)
  | (.ok fashion_analysis, calls1) =>
      match SustainabilityEstimator.estimate search_tool searchOutcome estimatorParse
          fashion_analysis with
      | (.error e, calls2) => (.error e, calls1 ++ calls2)
      | (.ok sustainability_estimates, calls2) =>
          (.ok { fashion_analysis := fashion_analysis
                 sustainability_estimates := sustainability_estimates },
            calls1 ++ calls2)

/-- The byte serialization the entrypoint produces from a successful run
(`json.dumps(response.to_dict(), ...)`), `Option.none` on failure. -/
def runSerialized (res : Except AgentError OrchestratedResponse × List ExtCall) :
    Option String :=
  match res.1 with
  | .ok r => Option.some r.to_dict.render
  | .error _ => Option.none

/- ======================= Claims ======================= -/

/-- The query the claim describes: built from the first three DISTINCT
component names, in their original order (first occurrences kept).  This
follows the claim's words, to be compared with the source's
`SustainabilityEstimator.build_research_query`. -/
def firstDistinct (l : List String) : List String :=
  l.foldl (fun acc x => if x ∈ acc then acc else acc ++ [x]) []

/-- The research query as claim C1 states it: the lifecycle-assessment
lead-in followed by at most the first three distinct component names. -/
def research_query_claimed (analysis : FashionAnalysis) : String :=
  "Lifecycle assessment water CO2 energy consumption for " ++
    String.intercalate ", "
      ((firstDistinct (analysis.components.map MaterialComponent.name)).take 3)

/-- An analysis with a repeated component name, on which the source's query
and the claimed distinct-names query differ. -/
def dupNameAnalysis : FashionAnalysis :=
  { garment_summary := "Blended jacket"
    components :=
      [ { name := "cotton", percentage := 60, weight_grams := 120 }
      , { name := "cotton", percentage := 20, weight_grams := 40 }
      , { name := "wool", percentage := 15, weight_grams := 30 }
      , { name := "silk", percentage := 5, weight_grams := 10 } ]
    total_weight_grams := Option.some 200 }

/-- C1, as stated, is false: on an analysis whose first components repeat a
name, the estimation step issues the query built from the first three
component names with the duplicate kept ("cotton, cotton, wool"), not the
query built from the first three distinct names ("cotton, wool, silk"). -/
theorem claim_C1_counterexample :
    searchQueries (SustainabilityEstimator.estimate .disabled (.ok .none)
        (.ok ⟨Option.none, Option.none, Option.none, Option.none, Option.none⟩)
        dupNameAnalysis).2
      ≠ [research_query_claimed dupNameAnalysis] := by
  decide

/-- C1 (amended): for every analysis with at least one component, whatever
the search-tool variant and the collaborator outcomes, the estimation step
issues exactly one research query, and that query is the
lifecycle-assessment lead-in followed by at most the first three component
names — duplicates retained — in their original order, joined with ", ". -/
theorem claim_C1 (sv : SearchToolVariant) (so : Except String PyValue)
    (ep : Except String ParsedEstimatorResponse) (analysis : FashionAnalysis)
    (h : analysis.components ≠ []) :
    searchQueries (SustainabilityEstimator.estimate sv so ep analysis).2
      = ["Lifecycle assessment water CO2 energy consumption for " ++
          String.intercalate ", " ((analysis.components.map MaterialComponent.name).take 3)] := by
  have hne : analysis.components.isEmpty = false := by
    simpa [List.isEmpty_iff] using h
  cases sv <;> cases so <;> cases ep <;>
    simp [SustainabilityEstimator.estimate, hne, SustainabilityWebSearchTool.run,
      toolInvoke, searchQueries, SustainabilityEstimator.build_research_query]

/-- Witness for C1 at a concrete one-component analysis. -/
theorem claim_C1_witness :
    searchQueries (SustainabilityEstimator.estimate .disabled (.ok .none)
        (.ok ⟨Option.none, Option.none, Option.none, Option.none, Option.none⟩)
        { garment_summary := "Linen shirt"
          components := [{ name := "linen", percentage := 100, weight_grams := 150 }]
          total_weight_grams := Option.none }).2
      = ["Lifecycle assessment water CO2 energy consumption for linen"] :=
  claim_C1 .disabled (.ok .none)
    (.ok ⟨Option.none, Option.none, Option.none, Option.none, Option.none⟩)
    { garment_summary := "Linen shirt"
      components := [{ name := "linen", percentage := 100, weight_grams := 150 }]
      total_weight_grams := Option.none }
    (by decide)

/-- C2: invoked on an analysis with an empty component list, the estimation
step fails with the `InvalidInputError` (the source's `ValueError`) and its
trace is empty: no search-tool invocation, no network call, no model call,
and no estimate value is produced. -/
theorem claim_C2 (sv : SearchToolVariant) (so : Except String PyValue)
    (ep : Except String ParsedEstimatorResponse) (analysis : FashionAnalysis)
    (h : analysis.components = []) :
    SustainabilityEstimator.estimate sv so ep analysis
      = (.error (.invalidInput
          "Fashion analysis does not contain any components to estimate."), []) := by
  simp [SustainabilityEstimator.estimate, h]

/-- Witness for C2 at a concrete empty analysis. -/
theorem claim_C2_witness :
    SustainabilityEstimator.estimate .disabled (.ok .none)
        (.ok ⟨Option.none, Option.none, Option.none, Option.none, Option.none⟩)
        { garment_summary := "Empty", components := [], total_weight_grams := Option.none }
      = (.error (.invalidInput
          "Fashion analysis does not contain any components to estimate."), []) :=
  claim_C2 .disabled (.ok .none)
    (.ok ⟨Option.none, Option.none, Option.none, Option.none, Option.none⟩)
    { garment_summary := "Empty", components := [], total_weight_grams := Option.none }
    rfl

/-- C3: the documented default policy of the parsing steps.  A missing
optional `total_weight_grams` stays unset (`Option.none`, not zero) and a
present one is carried over; missing required numeric fields (component
percentage and weight, and the three estimation metrics) default to 0;
missing string fields (summary, component name, methodology notes, research
context) default to the empty string. -/
theorem claim_C3 (pa : ParsedAnalyzerResponse) (pc : ParsedComponent)
    (pe : ParsedEstimatorResponse) :
    (pa.total_weight_grams = Option.none →
      (mkFashionAnalysis pa).total_weight_grams = Option.none) ∧
    (∀ w, pa.total_weight_grams = Option.some w →
      (mkFashionAnalysis pa).total_weight_grams = Option.some w) ∧
    (pa.garment_summary = Option.none → (mkFashionAnalysis pa).garment_summary = "") ∧
    (pc.name = Option.none → (mkMaterialComponent pc).name = "") ∧
    (pc.percentage = Option.none → (mkMaterialComponent pc).percentage = 0) ∧
    (pc.weight_grams = Option.none → (mkMaterialComponent pc).weight_grams = 0) ∧
    (pe.water_liters = Option.none → (mkSustainabilityEstimates pe).water_liters = 0) ∧
    (pe.co2_kg = Option.none → (mkSustainabilityEstimates pe).co2_kg = 0) ∧
    (pe.energy_kwh = Option.none → (mkSustainabilityEstimates pe).energy_kwh = 0) ∧
    (pe.methodology_notes = Option.none →
      (mkSustainabilityEstimates pe).methodology_notes = "") ∧
    (pe.research_context = Option.none →
      (mkSustainabilityEstimates pe).research_context = "") := by
  refine ⟨fun h => ?_, fun w h => ?_, fun h => ?_, fun h => ?_, fun h => ?_, fun h => ?_,
    fun h => ?_, fun h => ?_, fun h => ?_, fun h => ?_, fun h => ?_⟩ <;>
    simp [mkFashionAnalysis, mkMaterialComponent, mkSustainabilityEstimates, h]

/-- Witness for C3: the defaults at the all-absent parsed records, plus the
carry-over of a present total weight. -/
theorem claim_C3_witness :
    (mkFashionAnalysis ⟨Option.none, Option.none, Option.none⟩).total_weight_grams
        = Option.none ∧
    (mkFashionAnalysis ⟨Option.none, Option.none, Option.some 200⟩).total_weight_grams
        = Option.some 200 ∧
    (mkFashionAnalysis ⟨Option.none, Option.none, Option.none⟩).garment_summary = "" ∧
    (mkMaterialComponent ⟨Option.none, Option.none, Option.none⟩).name = "" ∧
    (mkMaterialComponent ⟨Option.none, Option.none, Option.none⟩).percentage = 0 ∧
    (mkMaterialComponent ⟨Option.none, Option.none, Option.none⟩).weight_grams = 0 ∧
    (mkSustainabilityEstimates
        ⟨Option.none, Option.none, Option.none, Option.none, Option.none⟩).water_liters = 0 ∧
    (mkSustainabilityEstimates
        ⟨Option.none, Option.none, Option.none, Option.none, Option.none⟩).co2_kg = 0 ∧
    (mkSustainabilityEstimates
        ⟨Option.none, Option.none, Option.none, Option.none, Option.none⟩).energy_kwh = 0 ∧
    (mkSustainabilityEstimates
        ⟨Option.none, Option.none, Option.none, Option.none, Option.none⟩).methodology_notes
        = "" ∧
    (mkSustainabilityEstimates
        ⟨Option.none, Option.none, Option.none, Option.none, Option.none⟩).research_context
        = "" := by
  have h1 := claim_C3 ⟨Option.none, Option.none, Option.none⟩
    ⟨Option.none, Option.none, Option.none⟩
    ⟨Option.none, Option.none, Option.none, Option.none, Option.none⟩
  have h2 := claim_C3 ⟨Option.none, Option.none, Option.some 200⟩
    ⟨Option.none, Option.none, Option.none⟩
    ⟨Option.none, Option.none, Option.none, Option.none, Option.none⟩
  exact ⟨h1.1 rfl, h2.2.1 200 rfl, h1.2.2.1 rfl, h1.2.2.2.1 rfl, h1.2.2.2.2.1 rfl,
    h1.2.2.2.2.2.1 rfl, h1.2.2.2.2.2.2.1 rfl, h1.2.2.2.2.2.2.2.1 rfl,
    h1.2.2.2.2.2.2.2.2.1 rfl, h1.2.2.2.2.2.2.2.2.2.1 rfl, h1.2.2.2.2.2.2.2.2.2.2 rfl⟩

/-- C4: with no search-provider credential configured (absent or empty),
the search operation returns, for every query and whatever the provider
oracle would have said, a result whose raw text is exactly the fixed
disabled-search advisory, and its trace holds no outbound network call. -/
theorem claim_C4 (key : Option String) (k : Nat) (so : Except String PyValue)
    (q : String) (h : pyTruthyOpt key = false) :
    SustainabilityWebSearchTool.run (SustainabilityWebSearchTool.build_tool key k) so q
      = (.ok { query := q, raw_output := disabledSearchMessage }, [.searchToolRun q]) ∧
    networkCalls
      (SustainabilityWebSearchTool.run
        (SustainabilityWebSearchTool.build_tool key k) so q).2 = [] := by
  constructor <;>
    simp [SustainabilityWebSearchTool.build_tool, h, SustainabilityWebSearchTool.run,
      toolInvoke, pyStr, networkCalls]

/-- Witness for C4 with the credential absent and the query "anything". -/
theorem claim_C4_witness :
    SustainabilityWebSearchTool.run
        (SustainabilityWebSearchTool.build_tool Option.none 5) (.ok .none) "anything"
      = (.ok { query := "anything", raw_output := disabledSearchMessage },
          [.searchToolRun "anything"]) ∧
    networkCalls
      (SustainabilityWebSearchTool.run
        (SustainabilityWebSearchTool.build_tool Option.none 5) (.ok .none) "anything").2 = [] :=
  claim_C4 Option.none 5 (.ok .none) "anything" rfl

/-- C5: the orchestrator's failure behaviour.  (a) When extraction fails,
the run fails with exactly the extraction error (a `ResponseFormatError`
wrapping the parse diagnostic), its trace is the extraction trace alone,
and the estimation step is never reached: no search-tool invocation and no
estimator model call appear.  (b) When extraction succeeds and estimation
fails with error `e`, the run fails with exactly `e`, unchanged.  (c) A
combined result is produced only when both steps fully succeed, and then it
packages exactly their two outputs. -/
theorem claim_C5 (ap : Except String ParsedAnalyzerResponse) (sv : SearchToolVariant)
    (so : Except String PyValue) (ep : Except String ParsedEstimatorResponse)
    (img prompt : String) :
    (∀ msg, ap = .error msg →
      CollaborativeAgentOrchestrator.run ap sv so ep img prompt
        = (.error (.responseFormat ("Failed to parse LLM response: " ++ msg)),
            (FashionMaterialAnalyzer.analyze ap img prompt).2) ∧
      searchQueries (CollaborativeAgentOrchestrator.run ap sv so ep img prompt).2 = [] ∧
      estimatorModelCalls
        (CollaborativeAgentOrchestrator.run ap sv so ep img prompt).2 = []) ∧
    (∀ fa calls1 e calls2,
      FashionMaterialAnalyzer.analyze ap img prompt = (.ok fa, calls1) →
      SustainabilityEstimator.estimate sv so ep fa = (.error e, calls2) →
      (CollaborativeAgentOrchestrator.run ap sv so ep img prompt).1 = .error e) ∧
    (∀ r calls,
      CollaborativeAgentOrchestrator.run ap sv so ep img prompt = (.ok r, calls) →
      ∃ fa calls1 se calls2,
        FashionMaterialAnalyzer.analyze ap img prompt = (.ok fa, calls1) ∧
        SustainabilityEstimator.estimate sv so ep fa = (.ok se, calls2) ∧
        r = { fashion_analysis := fa, sustainability_estimates := se } ∧
        calls = calls1 ++ calls2) := by
  cases ap with
  | error msg₀ =>
      refine ⟨fun msg hmsg => ?_, fun fa calls1 e calls2 ha he => ?_,
        fun r calls hr => ?_⟩
      · injection hmsg with h
        subst h
        refine ⟨rfl, ?_, ?_⟩ <;>
          simp [CollaborativeAgentOrchestrator.run, FashionMaterialAnalyzer.analyze,
            searchQueries, estimatorModelCalls]
      · simp [FashionMaterialAnalyzer.analyze] at ha
      · simp [CollaborativeAgentOrchestrator.run, FashionMaterialAnalyzer.analyze] at hr
  | ok parsed =>
      refine ⟨fun msg hmsg => ?_, fun fa calls1 e calls2 ha he => ?_,
        fun r calls hr => ?_⟩
      · simp at hmsg
      · simp [FashionMaterialAnalyzer.analyze] at ha
        obtain ⟨hfa, hcalls⟩ := ha
        subst hfa
        simp [CollaborativeAgentOrchestrator.run, FashionMaterialAnalyzer.analyze, he]
      · rcases h2 : SustainabilityEstimator.estimate sv so ep (mkFashionAnalysis parsed)
          with ⟨res, calls2⟩
        cases res with
        | error e =>
            simp [CollaborativeAgentOrchestrator.run, FashionMaterialAnalyzer.analyze,
              h2] at hr
        | ok se =>
            simp [CollaborativeAgentOrchestrator.run, FashionMaterialAnalyzer.analyze,
              h2] at hr
            exact ⟨mkFashionAnalysis parsed,
              [.analyzerModel img
                (if prompt.isEmpty then "No additional context provided." else prompt)],
              se, calls2, by simp [FashionMaterialAnalyzer.analyze], h2,
              hr.1.symm, by simp [hr.2.symm]⟩

/-- Witness for C5: part (a) applied where extraction fails on a response
missing every expected key, and part (c) applied to a fully successful run. -/
theorem claim_C5_witness :
    (CollaborativeAgentOrchestrator.run (.error "Got invalid JSON object.") .disabled
        (.ok .none)
        (.ok ⟨Option.none, Option.none, Option.none, Option.none, Option.none⟩)
        "img" ""
      = (.error (.responseFormat
            ("Failed to parse LLM response: " ++ "Got invalid JSON object.")),
          (FashionMaterialAnalyzer.analyze (.error "Got invalid JSON object.")
            "img" "").2) ∧
      searchQueries (CollaborativeAgentOrchestrator.run (.error "Got invalid JSON object.")
        .disabled (.ok .none)
        (.ok ⟨Option.none, Option.none, Option.none, Option.none, Option.none⟩)
        "img" "").2 = [] ∧
      estimatorModelCalls
        (CollaborativeAgentOrchestrator.run (.error "Got invalid JSON object.")
          .disabled (.ok .none)
          (.ok ⟨Option.none, Option.none, Option.none, Option.none, Option.none⟩)
          "img" "").2 = []) ∧
    (∃ fa calls1 se calls2,
      FashionMaterialAnalyzer.analyze
          (.ok ⟨Option.some "Cotton T-shirt",
            Option.some [⟨Option.some "cotton", Option.some 100, Option.some 200⟩],
            Option.some 200⟩) "img" "" = (.ok fa, calls1) ∧
      SustainabilityEstimator.estimate .disabled (.ok .none)
          (.ok ⟨Option.some 50, Option.some 2, Option.some 3,
            Option.some "m", Option.some "r"⟩) fa = (.ok se, calls2) ∧
      ({ fashion_analysis := fa, sustainability_estimates := se } : OrchestratedResponse)
        = { fashion_analysis := fa, sustainability_estimates := se } ∧
      (CollaborativeAgentOrchestrator.run
          (.ok ⟨Option.some "Cotton T-shirt",
            Option.some [⟨Option.some "cotton", Option.some 100, Option.some 200⟩],
            Option.some 200⟩) .disabled (.ok .none)
          (.ok ⟨Option.some 50, Option.some 2, Option.some 3,
            Option.some "m", Option.some "r"⟩) "img" "").2 = calls1 ++ calls2) := by
  constructor
  · exact (claim_C5 (.error "Got invalid JSON object.") .disabled (.ok .none)
      (.ok ⟨Option.none, Option.none, Option.none, Option.none, Option.none⟩)
      "img" "").1 "Got invalid JSON object." rfl
  · obtain ⟨fa, calls1, se, calls2, h1, h2, h3, h4⟩ :=
      (claim_C5 (.ok ⟨Option.some "Cotton T-shirt",
          Option.some [⟨Option.some "cotton", Option.some 100, Option.some 200⟩],
          Option.some 200⟩) .disabled (.ok .none)
        (.ok ⟨Option.some 50, Option.some 2, Option.some 3,
          Option.some "m", Option.some "r"⟩) "img" "").2.2 _ _ rfl
    exact ⟨fa, calls1, se, calls2, h1, h2, rfl, h4⟩

/-- The concrete extraction output of the C6 scenario. -/
def cottonAnalysis : FashionAnalysis :=
  { garment_summary := "Cotton T-shirt"
    components := [{ name := "cotton", percentage := 100, weight_grams := 200 }]
    total_weight_grams := Option.some 200 }

/-- C6: on the Cotton T-shirt analysis, whatever the search-tool variant and
the collaborator outcomes, the estimation step performs its research lookup
with exactly the query "Lifecycle assessment water CO2 energy consumption
for cotton", and with no other query. -/
theorem claim_C6 (sv : SearchToolVariant) (so : Except String PyValue)
    (ep : Except String ParsedEstimatorResponse) :
    searchQueries (SustainabilityEstimator.estimate sv so ep cottonAnalysis).2
      = ["Lifecycle assessment water CO2 energy consumption for cotton"] := by
  cases sv <;> cases so <;> cases ep <;> rfl

/-- C7: the orchestrator is deterministic.  Two runs given identical inputs
and identical collaborator outcomes produce identical byte serializations of
the combined result (and identically no serialization on failure). -/
theorem claim_C7 (ap₁ ap₂ : Except String ParsedAnalyzerResponse)
    (sv₁ sv₂ : SearchToolVariant) (so₁ so₂ : Except String PyValue)
    (ep₁ ep₂ : Except String ParsedEstimatorResponse)
    (img₁ img₂ pr₁ pr₂ : String)
    (hap : ap₁ = ap₂) (hsv : sv₁ = sv₂) (hso : so₁ = so₂) (hep : ep₁ = ep₂)
    (himg : img₁ = img₂) (hpr : pr₁ = pr₂) :
    runSerialized (CollaborativeAgentOrchestrator.run ap₁ sv₁ so₁ ep₁ img₁ pr₁)
      = runSerialized (CollaborativeAgentOrchestrator.run ap₂ sv₂ so₂ ep₂ img₂ pr₂) := by
  subst hap hsv hso hep himg hpr
  rfl

/-- Witness for C7: two textually separate but identical runs. -/
theorem claim_C7_witness :
    runSerialized (CollaborativeAgentOrchestrator.run
        (.ok ⟨Option.some "Cotton T-shirt",
          Option.some [⟨Option.some "cotton", Option.some 100, Option.some 200⟩],
          Option.some 200⟩) .disabled (.ok .none)
        (.ok ⟨Option.some 50, Option.some 2, Option.some 3,
          Option.some "m", Option.some "r"⟩) "img" "")
      = runSerialized (CollaborativeAgentOrchestrator.run
        (.ok ⟨Option.some "Cotton T-shirt",
          Option.some [⟨Option.some "cotton", Option.some 100, Option.some 200⟩],
          Option.some 200⟩) .disabled (.ok .none)
        (.ok ⟨Option.some 50, Option.some 2, Option.some 3,
          Option.some "m", Option.some "r"⟩) "img" "") :=
  claim_C7 _ _ _ _ _ _ _ _ _ _ _ _ rfl rfl rfl rfl rfl rfl

/-- Modelled from the spec: the repository serializes a combined result with
`OrchestratedResponse.to_dict` but contains no deserializer; the spec's
round-trip property (section 8) presupposes one.  This is the inverse
reading of the documented nested key-value structure for one component. -/
def MaterialComponent.from_dict : PyValue → Option MaterialComponent
  | .dict [("name", .str n), ("percentage", .num p), ("weight_grams", .num w)] =>
      Option.some { name := n, percentage := p, weight_grams := w }
  | _ => Option.none

/-- Modelled from the spec: inverse reading of a serialized component list,
element by element, failing when any entry fails to read back. -/
def componentsFromDictList : List PyValue → Option (List MaterialComponent)
  | [] => Option.some []
  | v :: vs => do
      let c ← MaterialComponent.from_dict v
      let cs ← componentsFromDictList vs
      pure (c :: cs)

/-- Modelled from the spec: inverse reading of the serialized
`fashion_analysis` entry, with the optional total weight read back as unset
when serialized as `None`. -/
def FashionAnalysis.from_dict : PyValue → Option FashionAnalysis
  | .dict [("garment_summary", .str s), ("total_weight_grams", tw),
      ("components", .list comps)] => do
      let tw2 ←
        match tw with
        | .none => Option.some Option.none
        | .num w => Option.some (Option.some w)
        | _ => Option.none
      let comps2 ← componentsFromDictList comps
      pure { garment_summary := s, components := comps2, total_weight_grams := tw2 }
  | _ => Option.none

/-- Modelled from the spec: inverse reading of the serialized
`sustainability_estimates` entry. -/
def SustainabilityEstimates.from_dict : PyValue → Option SustainabilityEstimates
  | .dict [("water_liters", .num w), ("co2_kg", .num c), ("energy_kwh", .num e),
      ("methodology_notes", .str m), ("research_context", .str r)] =>
      Option.some { water_liters := w, co2_kg := c, energy_kwh := e
                    methodology_notes := m, research_context := r }
  | _ => Option.none

/-- Modelled from the spec: inverse reading of the full serialized
`CombinedResult` nested key-value structure. -/
def OrchestratedResponse.from_dict : PyValue → Option OrchestratedResponse
  | .dict [("fashion_analysis", fa), ("sustainability_estimates", se)] => do
      let fa2 ← FashionAnalysis.from_dict fa
      let se2 ← SustainabilityEstimates.from_dict se
      pure { fashion_analysis := fa2, sustainability_estimates := se2 }
  | _ => Option.none

/-- Serializing then deserializing a component list reproduces it. -/
theorem components_roundtrip (l : List MaterialComponent) :
    componentsFromDictList (l.map MaterialComponent.to_dict) = Option.some l := by
  induction l with
  | nil => rfl
  | cons c cs ih =>
      simp [componentsFromDictList, ih, MaterialComponent.to_dict,
        MaterialComponent.from_dict]

/-- C8: serializing any combined result to the nested key-value structure
and deserializing it back reproduces every numeric and string field exactly
(the round trip is the identity). -/
theorem claim_C8 (r : OrchestratedResponse) :
    OrchestratedResponse.from_dict r.to_dict = Option.some r := by
  obtain ⟨⟨s, comps, tw⟩, ⟨w, c, e, m, rc⟩⟩ := r
  cases tw <;>
    simp [OrchestratedResponse.to_dict, OrchestratedResponse.from_dict,
      FashionAnalysis.from_dict, SustainabilityEstimates.from_dict,
      components_roundtrip]

/-- C9: with no injected client, a missing (absent or empty, hence falsy)
model-provider credential makes the construction of either agent fail
immediately with the missing-credential error, before anything else is
built; with the model-provider credential present and the search credential
absent, the estimator constructs successfully and selects the
disabled-search fallback at construction time. -/
theorem claim_C9 (settings : Settings) :
    (pyTruthyOpt settings.openai_api_key = false →
      FashionMaterialAnalyzer.init settings Option.none
        = .error (.missingCredential
            "OPENAI_API_KEY is required to instantiate FashionMaterialAnalyzer.") ∧
      SustainabilityEstimator.init settings Option.none Option.none
        = .error (.missingCredential
            "OPENAI_API_KEY is required to instantiate SustainabilityEstimator.")) ∧
    (pyTruthyOpt settings.openai_api_key = true →
      pyTruthyOpt settings.tavily_api_key = false →
      SustainabilityEstimator.init settings Option.none Option.none
        = .ok { llm := .chatOpenAI settings.sustainability_analyzer_model 0.2
                  (settings.openai_api_key.getD "")
                search_tool := .disabled }) := by
  constructor
  · intro h
    constructor <;> simp [FashionMaterialAnalyzer.init, SustainabilityEstimator.init, h]
  · intro h1 h2
    simp [SustainabilityEstimator.init, h1, SustainabilityWebSearchTool.build_tool, h2]

/-- Witness for C9: both credential situations at concrete settings. -/
theorem claim_C9_witness :
    (FashionMaterialAnalyzer.init
        { openai_api_key := Option.none, tavily_api_key := Option.none,
          fashion_analyzer_model := "gpt-4o-mini",
          sustainability_analyzer_model := "gpt-4o-mini" } Option.none
      = .error (.missingCredential
          "OPENAI_API_KEY is required to instantiate FashionMaterialAnalyzer.") ∧
     SustainabilityEstimator.init
        { openai_api_key := Option.none, tavily_api_key := Option.none,
          fashion_analyzer_model := "gpt-4o-mini",
          sustainability_analyzer_model := "gpt-4o-mini" } Option.none Option.none
      = .error (.missingCredential
          "OPENAI_API_KEY is required to instantiate SustainabilityEstimator.")) ∧
    SustainabilityEstimator.init
        { openai_api_key := Option.some "sk-test", tavily_api_key := Option.none,
          fashion_analyzer_model := "gpt-4o-mini",
          sustainability_analyzer_model := "gpt-4o-mini" } Option.none Option.none
      = .ok { llm := .chatOpenAI "gpt-4o-mini" 0.2 "sk-test"
              search_tool := .disabled } :=
  ⟨(claim_C9 { openai_api_key := Option.none, tavily_api_key := Option.none
               fashion_analyzer_model := "gpt-4o-mini"
               sustainability_analyzer_model := "gpt-4o-mini" }).1 rfl,
   (claim_C9 { openai_api_key := Option.some "sk-test", tavily_api_key := Option.none
               fashion_analyzer_model := "gpt-4o-mini"
               sustainability_analyzer_model := "gpt-4o-mini" }).2 rfl rfl⟩

/-- C10: whenever the underlying tool yields a value, the search operation
wraps it into a result whose query field is exactly the input query and
whose raw text is the string coercion of that value (so it is a string even
when the provider returned a non-string value). -/
theorem claim_C10 (variant : SearchToolVariant) (so : Except String PyValue)
    (q : String) (v : PyValue) (calls : List ExtCall)
    (h : toolInvoke variant so q = (.ok v, calls)) :
    SustainabilityWebSearchTool.run variant so q
      = (.ok { query := q, raw_output := pyStr v }, .searchToolRun q :: calls) := by
  simp [SustainabilityWebSearchTool.run, h]

/-- Witness for C10: a live tool whose provider returned a non-string value
(a list of result objects), coerced to its textual form. -/
theorem claim_C10_witness :
    SustainabilityWebSearchTool.run (.tavily "tv-test" 5)
        (.ok (.list [.dict [("content", .str "cotton uses water")]])) "q1"
      = (.ok { query := "q1"
               raw_output := pyStr (.list [.dict [("content", .str "cotton uses water")]]) },
          .searchToolRun "q1" :: [.searchNetwork "q1"]) :=
  claim_C10 (.tavily "tv-test" 5)
    (.ok (.list [.dict [("content", .str "cotton uses water")]])) "q1"
    (.list [.dict [("content", .str "cotton uses water")]]) [.searchNetwork "q1"] rfl
